import Mathlib

/-!
Verification of the Immo Eliza prediction pipeline
(`backend/app/predict.py`, `backend/app/schemas.py`, `backend/app/app.py`).

The development shallowly embeds the request-to-feature pipeline:
categorical normalization, location resolution against the postal
reference index, feature engineering, column alignment, warning
collection, the exception-to-HTTP-status mapping of the endpoint, and
the detransformation/formatting of the raw model scalar.

Modelling conventions:
- Python strings are Lean `String`; trimming/casing helpers are defined
  explicitly over `List Char` mirroring Python semantics for the ASCII
  and Latin-1 letters that occur in province data (full Unicode NFKD is
  out of scope; the diacritic table below covers the accented letters of
  the Belgian province vocabulary).
- Python dicts carrying the per-request record are association lists
  with string keys; `pandas` NaN / Python `None` is `Value.missing`.
- Python exceptions are an `Except` value: `ValueError` and
  `RuntimeError` are the two constructors actually raised by
  `preprocess`.
- Machine floats used for the engineered features carry integer values
  only, so they are embedded as `ℚ` (exact); the model's output scalar
  is embedded as `ℝ` since `expm1` is transcendental.
-/

deriving instance DecidableEq for Except

namespace ImmoEliza

/-- Python `str.strip` whitespace class (`\s` of the regexes used). -/
def isPySpace (c : Char) : Bool :=
  c = ' ' ∨ c = '\t' ∨ c = '\n' ∨ c = '\r' ∨ c = '\x0b' ∨ c = '\x0c'

/-- Python `str.strip()` on a character list. -/
def pyStripList (l : List Char) : List Char :=
  ((l.dropWhile isPySpace).reverse.dropWhile isPySpace).reverse

/-- Python `str.strip()`. -/
def pyStrip (s : String) : String := String.mk (pyStripList s.toList)

/-- Python `str.lower()` (ASCII letters; the alias tables are ASCII). -/
def pyLower (s : String) : String := String.mk (s.toList.map Char.toLower)

/-- Python `str.upper()` (ASCII letters). -/
def pyUpper (s : String) : String := String.mk (s.toList.map Char.toUpper)

/-- NFKD-style diacritic stripping for the Latin-1 letters occurring in
province spellings, applied after uppercasing (`unicodedata.normalize`
plus removal of combining marks in `_norm_key`). -/
def stripDiacritic (c : Char) : Char :=
  if c = 'É' ∨ c = 'È' ∨ c = 'Ê' ∨ c = 'Ë' ∨ c = 'é' ∨ c = 'è' ∨ c = 'ê' ∨ c = 'ë' then 'E'
  else if c = 'À' ∨ c = 'Â' ∨ c = 'à' ∨ c = 'â' then 'A'
  else if c = 'Î' ∨ c = 'Ï' ∨ c = 'î' ∨ c = 'ï' then 'I'
  else if c = 'Ô' ∨ c = 'ô' then 'O'
  else if c = 'Ù' ∨ c = 'Û' ∨ c = 'Ü' ∨ c = 'ù' ∨ c = 'û' ∨ c = 'ü' then 'U'
  else if c = 'Ç' ∨ c = 'ç' then 'C'
  else c

/-- Characters removed by `_norm_key`'s final regex `[\s\-_\.']`. -/
def isNormKeyJunk (c : Char) : Bool :=
  isPySpace c ∨ c = '-' ∨ c = '_' ∨ c = '.' ∨ c = '\''

/-- `_norm_key`: trim, uppercase, strip diacritics, drop
whitespace/hyphen/underscore/period/apostrophe. -/
def norm_key (s : String) : String :=
  String.mk
    (((pyStripList s.toList).map (fun c => stripDiacritic (Char.toUpper c))).filter
      (fun c => ¬ isNormKeyJunk c))

/-- Association-list lookup (first match), the embedding of Python
`dict.get` for the string-keyed dicts of the pipeline. -/
def alook {β : Type} (l : List (String × β)) (k : String) : Option β :=
  match l with
  | [] => none
  | (a, b) :: t => if a = k then some b else alook t k

/-! ### Constant tables (`backend/app/schemas.py`, `backend/app/predict.py`) -/

def AMENITY_ALLOWED : List String := ["yes", "no", "unknown"]

def CAT_COLS : List String :=
  ["garden", "terrace", "swimming_pool",
   "postal_code", "property_type", "state", "province", "region"]

def REGION_MAP : List (String × String) :=
  [("ANTWERPEN", "Flanders"),
   ("OOST-VLAANDEREN", "Flanders"),
   ("WEST-VLAANDEREN", "Flanders"),
   ("LIMBURG", "Flanders"),
   ("VLAAMS-BRABANT", "Flanders"),
   ("WAALS-BRABANT", "Wallonia"),
   ("HENEGOUWEN", "Wallonia"),
   ("LUIK", "Wallonia"),
   ("LUXEMBURG", "Wallonia"),
   ("NAMEN", "Wallonia"),
   ("BRUSSEL", "Brussels")]

def NUMERIC_COLS : List String :=
  ["build_year", "facades", "living_area", "number_rooms",
   "house_age", "is_new_build", "is_recent", "is_old", "build_decade"]

def ALLOWED_PROPERTY_TYPES : List String :=
  ["Apartment", "Residence", "Villa", "Ground", "Penthouse", "Duplex", "Mixed",
   "Studio", "Chalet", "Bungalow", "Cottage", "Master", "Loft", "Land", "Triplex",
   "Development", "Office", "Mansion", "Commercial", "Garage", "Student", "Business"]

def ALLOWED_STATES : List String :=
  ["New", "Normal", "Excellent", "To be renovated", "To renovate",
   "Fully renovated", "Under construction", "To restore", "To demolish"]

def ALLOWED_PROVINCES : List String :=
  ["ANTWERPEN", "OOST-VLAANDEREN", "WEST-VLAANDEREN", "LIMBURG", "VLAAMS-BRABANT",
   "WAALS-BRABANT", "HENEGOUWEN", "LUIK", "LUXEMBURG", "NAMEN", "BRUSSEL"]

def PROPERTY_TYPE_MAP : List (String × String) :=
  [("apt", "Apartment"),
   ("apartment", "Apartment"),
   ("res", "Residence"),
   ("resid", "Residence"),
   ("residence", "Residence"),
   ("house", "Residence")]

def STATE_MAP : List (String × String) :=
  [("new", "New"),
   ("normal", "Normal"),
   ("excellent", "Excellent"),
   ("to be renovated", "To be renovated"),
   ("to renovate", "To renovate"),
   ("fully renovated", "Fully renovated"),
   ("under construction", "Under construction"),
   ("to restore", "To restore"),
   ("to demolish", "To demolish"),
   ("needs renovation", "To be renovated"),
   ("renovated", "Fully renovated"),
   ("construction", "Under construction")]

def PROVINCE_ALIASES : List (String × String) :=
  [("ANTWERPEN", "ANTWERPEN"),
   ("OOSTVLAANDEREN", "OOST-VLAANDEREN"),
   ("WESTVLAANDEREN", "WEST-VLAANDEREN"),
   ("LIMBURG", "LIMBURG"),
   ("VLAAMSBRABANT", "VLAAMS-BRABANT"),
   ("WAALSBRABANT", "WAALS-BRABANT"),
   ("HENEGOUWEN", "HENEGOUWEN"),
   ("LUIK", "LUIK"),
   ("LUXEMBURG", "LUXEMBURG"),
   ("NAMEN", "NAMEN"),
   ("BRUSSEL", "BRUSSEL"),
   ("ANVERS", "ANTWERPEN"),
   ("FLANDREORIENTALE", "OOST-VLAANDEREN"),
   ("FLANDREOCCIDENTALE", "WEST-VLAANDEREN"),
   ("BRABANTFLAMAND", "VLAAMS-BRABANT"),
   ("BRABANTWALLON", "WAALS-BRABANT"),
   ("HAINAUT", "HENEGOUWEN"),
   ("LIEGE", "LUIK"),
   ("LUXEMBOURG", "LUXEMBURG"),
   ("NAMUR", "NAMEN"),
   ("BRUXELLES", "BRUSSEL"),
   ("BRUXELLESCAPITALE", "BRUSSEL"),
   ("REGIONDEBRUXELLESCAPITALE", "BRUSSEL"),
   ("REGIONBRUXELLESCAPITALE", "BRUSSEL")]

/-! ### Normalizers (`backend/app/predict.py`) -/

/-- `_normalize_province`: alias lookup on the normalized key, falling
back to comparing the normalized key against every canonical province. -/
def normalize_province (raw : Option String) : Option String :=
  match raw with
  | none => none
  | some r =>
    let key := norm_key r
    let canon :=
      match alook PROVINCE_ALIASES key with
      | some c => some c
      | none => ALLOWED_PROVINCES.find? (fun p => norm_key p = key)
    match canon with
    | some c => if c ∈ ALLOWED_PROVINCES then some c else none
    | none => none

/-- `_normalize_property_type`. -/
def normalize_property_type (raw : Option String) : Option String :=
  match raw with
  | none => none
  | some r =>
    let s := pyStrip r
    if s = "" then none
    else
      let k := pyLower s
      let canon :=
        match alook PROPERTY_TYPE_MAP k with
        | some c => some c
        | none => ALLOWED_PROPERTY_TYPES.find? (fun pt => k = pyLower pt)
      match canon with
      | some c => if c ∈ ALLOWED_PROPERTY_TYPES then some c else none
      | none => none

/-- `_normalize_state`. -/
def normalize_state (raw : Option String) : Option String :=
  match raw with
  | none => none
  | some r =>
    let s := pyStrip r
    if s = "" then none
    else
      let k := pyLower s
      let canon :=
        match alook STATE_MAP k with
        | some c => some c
        | none => ALLOWED_STATES.find? (fun st => k = pyLower st)
      match canon with
      | some c => if c ∈ ALLOWED_STATES then some c else none
      | none => none

/-- `_normalize_amenity`: trim/lowercase, boolean-like synonyms, then the
three-valued domain check. -/
def normalize_amenity (raw : Option String) : Option String :=
  match raw with
  | none => none
  | some r =>
    let s := pyLower (pyStrip r)
    if s = "" then none
    else
      let s := if s = "1" ∨ s = "true" ∨ s = "y" then "yes" else s
      let s := if s = "0" ∨ s = "false" ∨ s = "n" then "no" else s
      if s ∈ AMENITY_ALLOWED then some s else none

/-- Numeric value of a list of decimal digit characters (Python `int`). -/
def digitsVal (l : List Char) : Nat :=
  l.foldl (fun acc c => acc * 10 + (c.toNat - 48)) 0

/-- `_parse_postal_code`: strict 4-digit string or `none`. -/
def parse_postal_code (raw : Option String) : Option String :=
  match raw with
  | none => none
  | some s0 =>
    let s := pyStrip s0
    if s = "" then none
    else
      let digits := s.toList.filter Char.isDigit
      if digits.length ≠ 4 then none
      else
        let num := digitsVal digits
        if num < 1000 ∨ num > 9999 then none
        else some (String.mk digits)

/-- `_one_line_warning`: trim, drop empties, join with `" | "`. -/
def one_line_warning (lines : List String) : Option String :=
  let clean := (lines.map pyStrip).filter (fun x => x ≠ "")
  if clean = [] then none else some (String.intercalate " | " clean)

/-! ### Request, record values, errors -/

/-- `PredictRequest` after pydantic validation (`backend/app/schemas.py`):
optional strings have already had empty strings converted to `none` by
the `empty_to_none` validator; numeric bounds are schema concerns and are
not re-assumed here. `postal_code` may arrive as `str` or `int` in
Python; both are embedded as the string Python's `str()` yields. -/
structure PredictRequest where
  build_year : Int
  living_area : ℚ
  number_rooms : Int
  facades : Int
  garden : Option String
  terrace : Option String
  swimming_pool : Option String
  postal_code : Option String
  province : Option String
  property_type : Option String
  state : Option String
deriving DecidableEq, Repr

/-- A cell of the per-request record / aligned frame: a categorical
string, an exact numeric value, or pandas missing (`None`/`NaN`). -/
inductive Value where
  | str (s : String)
  | num (q : ℚ)
  | missing
deriving DecidableEq, Repr

/-- The two exception classes `preprocess` raises: `ValueError` for
domain/location violations and `RuntimeError` for the unloaded postal
reference. -/
inductive PErr where
  | valueError (msg : String)
  | runtimeError (msg : String)
deriving DecidableEq, Repr

/-- `Option String` to record cells (`None` stays missing). -/
def ov : Option String → Value
  | none => Value.missing
  | some s => Value.str s

/-- The per-request dict after province/region assignment and feature
engineering (`preprocess` body, before the categorical missing fill):
the request fields overwritten by their normalized forms, the resolved
location, and the derived features. `house_age` is
`current_year - build_year`, `NaN` when negative; the 0/1 flags are
`NaN` unless `house_age` is finite and the condition holds;
`build_decade` is `int((build_year // 10) * 10)`. -/
def buildData (req : PredictRequest) (g t sp pt st : Option String)
    (prov : Option String) (pc : Option String) (currentYear : Int) :
    List (String × Value) :=
  let region : Option String := prov.bind (fun p => alook REGION_MAP p)
  let age : Int := currentYear - req.build_year
  [("build_year", Value.num req.build_year),
   ("living_area", Value.num req.living_area),
   ("number_rooms", Value.num req.number_rooms),
   ("facades", Value.num req.facades),
   ("garden", ov g),
   ("terrace", ov t),
   ("swimming_pool", ov sp),
   ("postal_code", ov pc),
   ("province", ov prov),
   ("property_type", ov pt),
   ("state", ov st),
   ("region", ov region),
   ("house_age", if age < 0 then Value.missing else Value.num age),
   ("is_new_build", if 0 ≤ age ∧ age ≤ 5 then Value.num 1 else Value.missing),
   ("is_recent", if 0 ≤ age ∧ age ≤ 20 then Value.num 1 else Value.missing),
   ("is_old", if 0 ≤ age ∧ 50 ≤ age then Value.num 1 else Value.missing),
   ("build_decade", Value.num ((Int.fdiv req.build_year 10 * 10 : Int) : ℚ))]

/-- The categorical missing fill: every `CAT_COLS` entry that is missing
becomes the literal token `"unknown"`. -/
def fillCats (data : List (String × Value)) : List (String × Value) :=
  data.map (fun kv =>
    (kv.1, if kv.1 ∈ CAT_COLS ∧ kv.2 = Value.missing then Value.str "unknown" else kv.2))

/-- The record `preprocess` hands to the aligner once the location has
been resolved to `prov`/`pc`: the normalized categorical fields, the
engineered features, and the categorical missing fill. -/
def builtRecord (req : PredictRequest) (prov pc : Option String) (currentYear : Int) :
    List (String × Value) :=
  fillCats
    (buildData req (normalize_amenity req.garden) (normalize_amenity req.terrace)
      (normalize_amenity req.swimming_pool) (normalize_property_type req.property_type)
      (normalize_state req.state) prov pc currentYear)

/-- `pd.to_numeric(..., errors="coerce")` on a record cell. Numeric
cells keep their value, missing stays missing, and a string coerces to
its numeric value when it is a plain digit literal and to missing
otherwise (no reachable record places a non-numeric-literal string in a
numeric column). -/
def toNumericV : Value → Value
  | Value.num q => Value.num q
  | Value.missing => Value.missing
  | Value.str s =>
    if s ≠ "" ∧ s.toList.all Char.isDigit then Value.num (digitsVal s.toList)
    else Value.missing

/-- `X.reindex(columns=_expected_cols)` followed by the numeric coercion
loop over `NUMERIC_COLS`: one cell per expected column, missing when the
record lacks it. (`X.mask(pd.isna(X), np.nan)` is the identity in this
embedding, where `NaN` and `None` are both `Value.missing`.) -/
def alignColumns (expectedCols : List String) (data : List (String × Value)) :
    List (String × Value) :=
  expectedCols.map (fun c =>
    let v := (alook data c).getD Value.missing
    (c, if c ∈ NUMERIC_COLS then toNumericV v else v))

/-! ### The pipeline (`preprocess`, `backend/app/predict.py` 342-450) -/

/-- The soft-validation warnings of the categorical normalization steps,
in emission order: the amenity loop, then `property_type`, then
`state`. A warning is appended exactly when the raw value was supplied
but normalized to `None`. -/
def catWarnings (req : PredictRequest) : List String :=
  (if req.garden.isSome ∧ normalize_amenity req.garden = none
    then ["garden invalid; treated as missing."] else []) ++
  (if req.terrace.isSome ∧ normalize_amenity req.terrace = none
    then ["terrace invalid; treated as missing."] else []) ++
  (if req.swimming_pool.isSome ∧ normalize_amenity req.swimming_pool = none
    then ["swimming_pool invalid; treated as missing."] else []) ++
  (if req.property_type.isSome ∧ normalize_property_type req.property_type = none
    then ["property_type not known; treated as missing."] else []) ++
  (if req.state.isSome ∧ normalize_state req.state = none
    then ["state not known; treated as missing."] else [])

/-- The normalization + location-resolution + feature-engineering core of
`preprocess`, producing the filled record and the warning list, or the
exception it raises. Mirrors the decision order of the source: branch on
`postal_code is None`, then the 4-digit parse, then the empty-index
check, then the reference lookup, then the province-mismatch check. -/
def resolveAndBuild (idx : List (String × String)) (currentYear : Int)
    (req : PredictRequest) :
    Except PErr (List (String × Value) × List String) :=
  match req.postal_code with
  | none =>
    match normalize_province req.province with
    | none =>
      Except.error (PErr.valueError
        "You must provide either a valid postal_code or a recognizable province.")
    | some pn =>
      Except.ok (builtRecord req (some pn) none currentYear,
        catWarnings req ++ ["postal_code not provided; using province only."])
  | some pcRaw =>
    match parse_postal_code (some pcRaw) with
    | none =>
      Except.error (PErr.valueError "postal_code must be exactly 4 digits (e.g., 9000).")
    | some pc =>
      if idx.isEmpty then
        Except.error (PErr.runtimeError
          "Postal reference not loaded; cannot validate postal_code.")
      else
        match alook idx pc with
        | none =>
          Except.error (PErr.valueError
            ("postal_code " ++ pc ++ " not found in reference file."))
        | some provRef =>
          match normalize_province req.province with
          | some pn =>
            if pn ≠ provRef then
              Except.error (PErr.valueError
                ("postal_code " ++ pc ++ " belongs to province " ++ provRef ++
                  ", but you sent " ++ pn ++ "."))
            else
              Except.ok (builtRecord req (some provRef) (some pc) currentYear, catWarnings req)
          | none =>
            Except.ok (builtRecord req (some provRef) (some pc) currentYear, catWarnings req)

/-- `preprocess`: the resolved record aligned to the artifact's expected
columns, paired with the collapsed warning line. The artifact's expected
column list and the current calendar year are ambient state of the
process and appear as explicit parameters. -/
def preprocess (idx : List (String × String)) (expectedCols : List String)
    (currentYear : Int) (req : PredictRequest) :
    Except PErr (List (String × Value) × Option String) :=
  match resolveAndBuild idx currentYear req with
  | Except.error e => Except.error e
  | Except.ok (d, ws) => Except.ok (alignColumns expectedCols d, one_line_warning ws)

/-! ### HTTP boundary (`backend/app/app.py` `predict_endpoint`) -/

/-- The status code `predict_endpoint` responds with, as a function of
the readiness flag set at startup and the outcome of the pipeline: 503
when artifacts failed to load, 400 for `ValueError`, 500 for any other
exception (the generic `except Exception` branch), 200 on success. -/
def predictEndpointStatus (ready : Bool)
    (res : Except PErr (List (String × Value) × Option String)) : Nat :=
  if ready = false then 503
  else
    match res with
    | Except.ok _ => 200
    | Except.error (PErr.valueError _) => 400
    | Except.error (PErr.runtimeError _) => 500

/-! ### Detransformation and currency formatting
(`predict_text`, `_model_outputs_real_price`) -/

/-- Digit groups of three, taken from the least-significant end of a
reversed digit list (the grouping of Python's `{:,}` format). -/
def chunks3 : List Char → List (List Char)
  | [] => []
  | [a] => [[a]]
  | [a, b] => [[a, b]]
  | a :: b :: c :: rest => [a, b, c] :: chunks3 rest

/-- Thousands grouping of a decimal digit string. -/
def groupThousands (ds : List Char) : String :=
  String.intercalate "," (((chunks3 ds.reverse).map List.reverse).reverse.map String.mk)

/-- Two-digit cent rendering (the `.2f` fractional part). -/
def twoDigitFrac (n : Nat) : String :=
  (if n < 10 then "0" else "") ++ Nat.repr n

/-- `f"€{pred_value:,.2f}"` applied to a price expressed in integer
cents: euro sign, sign, thousands-grouped euros, period, two-digit
cents. -/
def formatEuroCents (cents : Int) : String :=
  let a := cents.natAbs
  let sign := if cents < 0 then "-" else ""
  "€" ++ sign ++ groupThousands (Nat.repr (a / 100)).toList ++ "." ++ twoDigitFrac (a % 100)

/-- The detransform of `predict_text`: the raw scalar is used directly
when `_model_outputs_real_price` holds (the model step is a
`TransformedTargetRegressor`), and otherwise inverse-transformed with
`np.expm1` (`exp x - 1`). The duck-typed introspection of the sklearn
object is embedded as the boolean it produces. -/
noncomputable def pred_price (outputsRealPrice : Bool) (rawPred : ℝ) : ℝ :=
  if outputsRealPrice then rawPred else Real.exp rawPred - 1

/-- `round(float(pred_price), 2)` expressed in integer cents: the price
scaled by 100 and rounded to the nearest integer (the tie-breaking rule
is immaterial off half-cent boundaries). -/
noncomputable def pred_value_cents (outputsRealPrice : Bool) (rawPred : ℝ) : ℤ :=
  round (pred_price outputsRealPrice rawPred * 100)

/-- The formatted prediction string `predict_text` returns for a given
output scale and raw model scalar. -/
noncomputable def pred_text (outputsRealPrice : Bool) (rawPred : ℝ) : String :=
  formatEuroCents (pred_value_cents outputsRealPrice rawPred)

/-! ### Concrete fixtures for witnesses and counterexamples -/

/-- A small postal reference index as `_load_postal_lookup` would
produce it (4-digit keys, uppercased province values). -/
def refIdx : List (String × String) :=
  [("9000", "OOST-VLAANDEREN"), ("2000", "ANTWERPEN"), ("1000", "BRUSSEL")]

/-- The request of spec Scenario A (postal code only). -/
def reqPostalOnly : PredictRequest :=
  { build_year := 1996, living_area := 120, number_rooms := 3, facades := 2,
    garden := none, terrace := none, swimming_pool := none,
    postal_code := some "9000", province := none, property_type := none, state := none }

/-! ### Helper lemmas -/

lemma alook_isEmpty_false {β : Type} {l : List (String × β)} {k : String} {v : β}
    (h : alook l k = some v) : l.isEmpty = false := by
  cases l with
  | nil => simp [alook] at h
  | cons a t => rfl

/-! ### Claims -/

/-- C1: whenever the request carries a postal code that parses and is
present in the reference index together with a province that normalizes
to a canonical label different from the indexed province, `preprocess`
raises the fatal `ValueError` naming both provinces
("postal_code {pc} belongs to province {X}, but you sent {Y}."). -/
theorem c1_mismatched_province_raises (idx : List (String × String))
    (expectedCols : List String) (yr : Int) (req : PredictRequest)
    (pcRaw pc provRef pn : String)
    (hpc : req.postal_code = some pcRaw)
    (hparse : parse_postal_code (some pcRaw) = some pc)
    (hidx : alook idx pc = some provRef)
    (hprov : normalize_province req.province = some pn)
    (hne : pn ≠ provRef) :
    preprocess idx expectedCols yr req =
      Except.error (PErr.valueError
        ("postal_code " ++ pc ++ " belongs to province " ++ provRef ++
          ", but you sent " ++ pn ++ ".")) := by
  have hne' : idx.isEmpty = false := alook_isEmpty_false hidx
  unfold preprocess resolveAndBuild
  rw [hpc]
  simp [hparse, hne', hidx, hprov, hne]

/-- C1 witness: postal code 9000 is indexed as OOST-VLAANDEREN; sending
province "Antwerpen" (canonical ANTWERPEN) raises the mismatch error. -/
theorem c1_witness :
    preprocess refIdx [] 2026
        { reqPostalOnly with province := some "Antwerpen" } =
      Except.error (PErr.valueError
        "postal_code 9000 belongs to province OOST-VLAANDEREN, but you sent ANTWERPEN.") :=
  c1_mismatched_province_raises refIdx [] 2026 _ "9000" "9000" "OOST-VLAANDEREN" "ANTWERPEN"
    rfl (by decide) (by decide) (by decide) (by decide)

lemma one_line_single :
    one_line_warning ["postal_code not provided; using province only."] =
      some "postal_code not provided; using province only." := by decide

/-- C2: with no postal code supplied, `preprocess` raises a fatal
`ValueError` exactly when the supplied province does not normalize to a
canonical province; when it does normalize, the pipeline proceeds on the
province only, and (absent other soft-validation warnings) the warning
line is exactly "postal_code not provided; using province only.". -/
theorem c2_no_postal_code (idx : List (String × String)) (cols : List String)
    (yr : Int) (req : PredictRequest)
    (hpc : req.postal_code = none) :
    ((∃ e, preprocess idx cols yr req = Except.error e) ↔
      normalize_province req.province = none) ∧
    (normalize_province req.province = none →
      preprocess idx cols yr req =
        Except.error (PErr.valueError
          "You must provide either a valid postal_code or a recognizable province.")) ∧
    (∀ pn, normalize_province req.province = some pn →
      req.garden = none → req.terrace = none → req.swimming_pool = none →
      req.property_type = none → req.state = none →
      preprocess idx cols yr req =
        Except.ok (alignColumns cols (builtRecord req (some pn) none yr),
          some "postal_code not provided; using province only.")) := by
  unfold preprocess resolveAndBuild
  rw [hpc]
  cases h : normalize_province req.province with
  | none =>
    exact ⟨⟨fun _ => rfl, fun _ => ⟨_, rfl⟩⟩, fun _ => rfl,
      fun pn hpn => absurd hpn (by simp)⟩
  | some pn' =>
    refine ⟨⟨?_, ?_⟩, ?_, ?_⟩
    · rintro ⟨e, he⟩; exact Except.noConfusion he
    · intro h'; exact absurd h' (by simp)
    · intro h'; exact absurd h' (by simp)
    · intro pn hpn hg ht hsp hpt hst
      obtain rfl : pn' = pn := by injection hpn
      simp only [catWarnings, hg, ht, hsp, hpt, hst, Option.isSome_none,
        Bool.false_eq_true, false_and, if_neg, if_false, List.nil_append,
        one_line_single]

/-- The request of spec Scenario C (no postal code, French spelling of
Brussels). -/
def reqBruxelles : PredictRequest :=
  { reqPostalOnly with postal_code := none, province := some "Bruxelles" }

/-- C2 witness: Scenario C — no postal code, province "Bruxelles"
normalizes to BRUSSEL and the warning line is exactly the informational
message. -/
theorem c2_witness :
    preprocess refIdx [] 2026 reqBruxelles =
      Except.ok
        (alignColumns [] (builtRecord reqBruxelles (some "BRUSSEL") none 2026),
          some "postal_code not provided; using province only.") :=
  (c2_no_postal_code refIdx [] 2026 reqBruxelles rfl).2.2 "BRUSSEL" (by decide)
    rfl rfl rfl rfl rfl

lemma alook_builtRecord_province (req : PredictRequest) (pc : Option String)
    (yr : Int) (p : String) :
    alook (builtRecord req (some p) pc yr) "province" = some (Value.str p) := by
  simp [builtRecord, buildData, fillCats, alook, CAT_COLS, ov]

lemma alook_builtRecord_postal_code (req : PredictRequest) (yr : Int)
    (p pc : String) :
    alook (builtRecord req (some p) (some pc) yr) "postal_code" = some (Value.str pc) := by
  simp [builtRecord, buildData, fillCats, alook, CAT_COLS, ov]

lemma alook_builtRecord_region (req : PredictRequest) (pc : Option String)
    (yr : Int) (p r : String) (hr : alook REGION_MAP p = some r) :
    alook (builtRecord req (some p) pc yr) "region" = some (Value.str r) := by
  unfold builtRecord buildData
  simp only [Option.bind, hr]
  simp [fillCats, alook, CAT_COLS, ov]

/-- C3: a request carrying an indexed postal code and no province
resolves without error and without warnings: the resolved province is
the indexed value, the postal code is retained, and the region is the
one the province/region partition table assigns to that province. -/
theorem c3_postal_only_resolution (idx : List (String × String)) (yr : Int)
    (req : PredictRequest) (pcRaw pc provRef : String)
    (hpc : req.postal_code = some pcRaw)
    (hparse : parse_postal_code (some pcRaw) = some pc)
    (hidx : alook idx pc = some provRef)
    (hprov : req.province = none)
    (hg : req.garden = none) (ht : req.terrace = none)
    (hsp : req.swimming_pool = none) (hpt : req.property_type = none)
    (hst : req.state = none) :
    resolveAndBuild idx yr req =
      Except.ok (builtRecord req (some provRef) (some pc) yr, []) ∧
    alook (builtRecord req (some provRef) (some pc) yr) "province" =
      some (Value.str provRef) ∧
    alook (builtRecord req (some provRef) (some pc) yr) "postal_code" =
      some (Value.str pc) ∧
    (∀ r, alook REGION_MAP provRef = some r →
      alook (builtRecord req (some provRef) (some pc) yr) "region" =
        some (Value.str r)) := by
  refine ⟨?_, alook_builtRecord_province req (some pc) yr provRef,
    alook_builtRecord_postal_code req yr provRef pc,
    fun r hr => alook_builtRecord_region req (some pc) yr provRef r hr⟩
  have hne' : idx.isEmpty = false := alook_isEmpty_false hidx
  unfold resolveAndBuild
  rw [hpc]
  simp [hparse, hne', hidx, hprov, normalize_province, catWarnings,
    hg, ht, hsp, hpt, hst]

/-- C3 witness: Scenario A — postal code 9000 alone resolves to
OOST-VLAANDEREN / Flanders with no warnings. -/
theorem c3_witness :
    resolveAndBuild refIdx 2026 reqPostalOnly =
      Except.ok (builtRecord reqPostalOnly (some "OOST-VLAANDEREN") (some "9000") 2026, []) ∧
    alook (builtRecord reqPostalOnly (some "OOST-VLAANDEREN") (some "9000") 2026)
      "province" = some (Value.str "OOST-VLAANDEREN") ∧
    alook (builtRecord reqPostalOnly (some "OOST-VLAANDEREN") (some "9000") 2026)
      "postal_code" = some (Value.str "9000") ∧
    alook (builtRecord reqPostalOnly (some "OOST-VLAANDEREN") (some "9000") 2026)
      "region" = some (Value.str "Flanders") := by
  have h := c3_postal_only_resolution refIdx 2026 reqPostalOnly "9000" "9000"
    "OOST-VLAANDEREN" rfl (by decide) (by decide) rfl rfl rfl rfl rfl rfl
  exact ⟨h.1, h.2.1, h.2.2.1, h.2.2.2 "Flanders" (by decide)⟩

/-- C4: postal-code parsing keeps exactly the digit characters of the
(trimmed) input; the parse succeeds precisely when 4 digits remain and
their numeric value lies in 1000–9999; and a supplied postal code that
fails the check makes `preprocess` raise the fatal `ValueError`
"postal_code must be exactly 4 digits (e.g., 9000).". -/
theorem c4_postal_code_parsing (s : String) :
    (parse_postal_code (some s) ≠ none ↔
      (((pyStrip s).toList.filter Char.isDigit).length = 4 ∧
        1000 ≤ digitsVal ((pyStrip s).toList.filter Char.isDigit) ∧
        digitsVal ((pyStrip s).toList.filter Char.isDigit) ≤ 9999)) ∧
    (∀ d, parse_postal_code (some s) = some d →
      d = String.mk ((pyStrip s).toList.filter Char.isDigit)) ∧
    (∀ idx cols yr req, req.postal_code = some s →
      parse_postal_code (some s) = none →
      preprocess idx cols yr req =
        Except.error (PErr.valueError
          "postal_code must be exactly 4 digits (e.g., 9000).")) := by
  have hpp : parse_postal_code (some s) =
      (if pyStrip s = "" then none
       else if ((pyStrip s).toList.filter Char.isDigit).length ≠ 4 then none
       else if digitsVal ((pyStrip s).toList.filter Char.isDigit) < 1000 ∨
           digitsVal ((pyStrip s).toList.filter Char.isDigit) > 9999 then none
       else some (String.mk ((pyStrip s).toList.filter Char.isDigit))) := rfl
  refine ⟨?_, ?_, ?_⟩
  · rw [hpp]
    split_ifs with h0 h1 h2
    · simp only [ne_eq, not_true_eq_false, false_iff]
      rintro ⟨h4, -, -⟩
      rw [h0] at h4
      simp [String.toList] at h4
    · simp only [ne_eq, not_true_eq_false, false_iff]
      rintro ⟨h4, -, -⟩
      exact h1 h4
    · simp only [ne_eq, not_true_eq_false, false_iff]
      rintro ⟨-, h5, h6⟩
      omega
    · push_neg at h1 h2
      simp only [ne_eq, reduceCtorEq, not_false_eq_true, true_iff]
      exact ⟨h1, by omega, by omega⟩
  · rw [hpp]
    split_ifs
    · intro d hd; exact absurd hd (by simp)
    · intro d hd; exact absurd hd (by simp)
    · intro d hd; exact absurd hd (by simp)
    · intro d hd; injection hd with h; exact h.symm
  · intro idx cols yr req hreq hnone
    unfold preprocess resolveAndBuild
    rw [hreq]
    simp [hnone]

/-- C4 witness: "0123" strips to four digits whose value 123 is below
1000, so it is rejected with the 4-digit error message. -/
theorem c4_witness :
    parse_postal_code (some "0123") = none ∧
    preprocess refIdx [] 2026 { reqPostalOnly with postal_code := some "0123" } =
      Except.error (PErr.valueError
        "postal_code must be exactly 4 digits (e.g., 9000).") :=
  ⟨by decide,
    (c4_postal_code_parsing "0123").2.2 refIdx [] 2026
      { reqPostalOnly with postal_code := some "0123" } rfl (by decide)⟩

/-- C5 counterexample: with the postal reference index empty, a ready
process, and a well-formed postal code (9000), `preprocess` raises the
`RuntimeError` branch and `predict_endpoint` answers 500 — not the 503
the claim asserts. -/
theorem c5_counterexample :
    preprocess [] [] 2026 reqPostalOnly =
      Except.error (PErr.runtimeError
        "Postal reference not loaded; cannot validate postal_code.") ∧
    predictEndpointStatus true (preprocess [] [] 2026 reqPostalOnly) = 500 ∧
    predictEndpointStatus true (preprocess [] [] 2026 reqPostalOnly) ≠ 503 := by
  decide

/-- C5 (amended): with the postal reference index empty, a well-formed
postal code makes `preprocess` fail with the `RuntimeError` class —
distinct from the `ValueError` used for domain/location errors, so the
boundary does not answer 400 — but the endpoint's generic exception
handler maps it to 500; 503 is produced only when the readiness flag is
down (artifact loading itself failed). -/
theorem c5_empty_index_runtime_error_500 (cols : List String) (yr : Int)
    (req : PredictRequest) (pcRaw pc : String)
    (hpc : req.postal_code = some pcRaw)
    (hparse : parse_postal_code (some pcRaw) = some pc) :
    preprocess [] cols yr req =
      Except.error (PErr.runtimeError
        "Postal reference not loaded; cannot validate postal_code.") ∧
    predictEndpointStatus true (preprocess [] cols yr req) = 500 ∧
    predictEndpointStatus false (preprocess [] cols yr req) = 503 := by
  have h : preprocess [] cols yr req =
      Except.error (PErr.runtimeError
        "Postal reference not loaded; cannot validate postal_code.") := by
    unfold preprocess resolveAndBuild
    rw [hpc]
    simp [hparse, List.isEmpty]
  exact ⟨h, by rw [h]; rfl, rfl⟩

/-- C5 witness: the amended statement at the concrete Scenario-A
request. -/
theorem c5_witness :
    preprocess [] [] 2026 reqPostalOnly =
      Except.error (PErr.runtimeError
        "Postal reference not loaded; cannot validate postal_code.") ∧
    predictEndpointStatus true (preprocess [] [] 2026 reqPostalOnly) = 500 ∧
    predictEndpointStatus false (preprocess [] [] 2026 reqPostalOnly) = 503 :=
  c5_empty_index_runtime_error_500 [] 2026 reqPostalOnly "9000" "9000" rfl (by decide)

lemma one_line_garden :
    one_line_warning ["garden invalid; treated as missing."] =
      some "garden invalid; treated as missing." := by decide

/-- C6: amenity normalization is total ("never raises"): boolean-like
synonyms map to yes/no, the three-valued domain is kept, and every
other non-empty value becomes missing; an invalid supplied amenity does
not abort the pipeline — the request still succeeds, the record carries
the "unknown" fill for the field, and exactly one warning naming the
field is emitted. -/
theorem c6_amenity_normalization (raw : String) :
    (pyLower (pyStrip raw) = "1" ∨ pyLower (pyStrip raw) = "true" ∨
        pyLower (pyStrip raw) = "y" →
      normalize_amenity (some raw) = some "yes") ∧
    (pyLower (pyStrip raw) = "0" ∨ pyLower (pyStrip raw) = "false" ∨
        pyLower (pyStrip raw) = "n" →
      normalize_amenity (some raw) = some "no") ∧
    (pyLower (pyStrip raw) ∈ AMENITY_ALLOWED →
      normalize_amenity (some raw) = some (pyLower (pyStrip raw))) ∧
    (pyLower (pyStrip raw) ≠ "" →
      ¬ (pyLower (pyStrip raw) = "1" ∨ pyLower (pyStrip raw) = "true" ∨
          pyLower (pyStrip raw) = "y") →
      ¬ (pyLower (pyStrip raw) = "0" ∨ pyLower (pyStrip raw) = "false" ∨
          pyLower (pyStrip raw) = "n") →
      pyLower (pyStrip raw) ∉ AMENITY_ALLOWED →
      normalize_amenity (some raw) = none) ∧
    (∀ idx yr req pcRaw pc provRef,
      req.garden = some raw → normalize_amenity (some raw) = none →
      req.postal_code = some pcRaw → parse_postal_code (some pcRaw) = some pc →
      alook idx pc = some provRef → req.province = none →
      req.terrace = none → req.swimming_pool = none →
      req.property_type = none → req.state = none →
      resolveAndBuild idx yr req =
        Except.ok (builtRecord req (some provRef) (some pc) yr,
          ["garden invalid; treated as missing."]) ∧
      alook (builtRecord req (some provRef) (some pc) yr) "garden" =
        some (Value.str "unknown") ∧
      (∀ cols, preprocess idx cols yr req =
        Except.ok (alignColumns cols (builtRecord req (some provRef) (some pc) yr),
          some "garden invalid; treated as missing."))) := by
  refine ⟨?_, ?_, ?_, ?_, ?_⟩
  · rintro (h | h | h) <;> simp [normalize_amenity, h, AMENITY_ALLOWED]
  · rintro (h | h | h) <;> simp [normalize_amenity, h, AMENITY_ALLOWED]
  · intro h
    rcases (by simpa [AMENITY_ALLOWED] using h : pyLower (pyStrip raw) = "yes" ∨
        pyLower (pyStrip raw) = "no" ∨ pyLower (pyStrip raw) = "unknown") with h' | h' | h' <;>
      simp [normalize_amenity, h', AMENITY_ALLOWED]
  · intro h0 h1 h2 h3
    simp [normalize_amenity, h0, h1, h2, h3]
  · intro idx yr req pcRaw pc provRef hg hn hpc hparse hidx hprov ht hsp hpt hst
    have hw : catWarnings req = ["garden invalid; treated as missing."] := by
      simp [catWarnings, hg, hn, ht, hsp, hpt, hst]
    have hres : resolveAndBuild idx yr req =
        Except.ok (builtRecord req (some provRef) (some pc) yr,
          ["garden invalid; treated as missing."]) := by
      have hne' : idx.isEmpty = false := alook_isEmpty_false hidx
      unfold resolveAndBuild
      rw [hpc]
      simp [hparse, hne', hidx, hprov, normalize_province, hw]
    refine ⟨hres, ?_, ?_⟩
    · simp [builtRecord, buildData, fillCats, alook, CAT_COLS, ov, hg, hn]
    · intro cols
      unfold preprocess
      rw [hres]
      simp [one_line_garden]

/-- The request of spec Scenario D (garden:"maybe" plus a valid postal
code). -/
def reqMaybe : PredictRequest := { reqPostalOnly with garden := some "maybe" }

/-- C6 witness: Scenario D — garden "maybe" is invalid, becomes the
"unknown" fill, and the warning line is exactly the garden warning. -/
theorem c6_witness :
    normalize_amenity (some "maybe") = none ∧
    preprocess refIdx [] 2026 reqMaybe =
      Except.ok (alignColumns [] (builtRecord reqMaybe (some "OOST-VLAANDEREN") (some "9000") 2026),
        some "garden invalid; treated as missing.") :=
  ⟨(c6_amenity_normalization "maybe").2.2.2.1 (by decide) (by decide) (by decide) (by decide),
    ((c6_amenity_normalization "maybe").2.2.2.2 refIdx 2026 reqMaybe "9000" "9000"
      "OOST-VLAANDEREN" rfl (by decide) rfl (by decide) (by decide) rfl rfl rfl rfl rfl).2.2 []⟩

lemma resolveAndBuild_ok_record (idx : List (String × String)) (yr : Int)
    (req : PredictRequest) (data : List (String × Value)) (ws : List String)
    (h : resolveAndBuild idx yr req = Except.ok (data, ws)) :
    ∃ prov pc, data = builtRecord req prov pc yr := by
  unfold resolveAndBuild at h
  repeat' split at h
  all_goals
    first
      | (simp only [Except.ok.injEq, Prod.mk.injEq] at h; exact ⟨_, _, h.1.symm⟩)
      | exact absurd h (by simp)

/-- C7: in every record that reaches feature engineering, house_age is
the current calendar year minus build_year and missing when that
difference is negative; each age flag is 1 exactly when house_age is
finite and the flag's threshold holds, and missing otherwise; and
build_decade is floor(build_year / 10) × 10, never missing. -/
theorem c7_feature_engineering (idx : List (String × String)) (yr : Int)
    (req : PredictRequest) (data : List (String × Value)) (ws : List String)
    (h : resolveAndBuild idx yr req = Except.ok (data, ws)) :
    alook data "house_age" =
      some (if yr - req.build_year < 0 then Value.missing
        else Value.num ((yr - req.build_year : Int) : ℚ)) ∧
    alook data "is_new_build" =
      some (if 0 ≤ yr - req.build_year ∧ yr - req.build_year ≤ 5 then Value.num 1
        else Value.missing) ∧
    alook data "is_recent" =
      some (if 0 ≤ yr - req.build_year ∧ yr - req.build_year ≤ 20 then Value.num 1
        else Value.missing) ∧
    alook data "is_old" =
      some (if 0 ≤ yr - req.build_year ∧ 50 ≤ yr - req.build_year then Value.num 1
        else Value.missing) ∧
    alook data "build_decade" =
      some (Value.num ((Int.fdiv req.build_year 10 * 10 : Int) : ℚ)) := by
  obtain ⟨prov, pc, rfl⟩ := resolveAndBuild_ok_record idx yr req data ws h
  refine ⟨?_, ?_, ?_, ?_, ?_⟩ <;>
    simp [builtRecord, buildData, fillCats, alook, CAT_COLS, ov]

/-- C7 witness: Scenario A in year 2026 — house_age 30, none of the age
flags fire (30 > 5, 30 > 20, 30 < 50), build_decade 1990. -/
theorem c7_witness :
    alook (builtRecord reqPostalOnly (some "OOST-VLAANDEREN") (some "9000") 2026)
        "house_age" = some (Value.num 30) ∧
    alook (builtRecord reqPostalOnly (some "OOST-VLAANDEREN") (some "9000") 2026)
        "is_new_build" = some Value.missing ∧
    alook (builtRecord reqPostalOnly (some "OOST-VLAANDEREN") (some "9000") 2026)
        "is_recent" = some Value.missing ∧
    alook (builtRecord reqPostalOnly (some "OOST-VLAANDEREN") (some "9000") 2026)
        "is_old" = some Value.missing ∧
    alook (builtRecord reqPostalOnly (some "OOST-VLAANDEREN") (some "9000") 2026)
        "build_decade" = some (Value.num 1990) := by
  have h := c7_feature_engineering refIdx 2026 reqPostalOnly
    (builtRecord reqPostalOnly (some "OOST-VLAANDEREN") (some "9000") 2026) []
    (by decide)
  exact ⟨h.1.trans (by decide), h.2.1.trans (by decide), h.2.2.1.trans (by decide),
    h.2.2.2.1.trans (by decide), h.2.2.2.2.trans (by decide)⟩

lemma exp_twelve_bounds :
    (162754.785 : ℝ) < Real.exp 12 ∧ Real.exp 12 < 162754.795 := by
  have h12 : Real.exp 12 = Real.exp 1 ^ (12 : ℕ) := by
    rw [← Real.exp_nat_mul]
    norm_num
  constructor
  · have hlt : (2.7182818283 : ℝ) ^ (12 : ℕ) < Real.exp 1 ^ (12 : ℕ) :=
      pow_lt_pow_left₀ Real.exp_one_gt_d9 (by norm_num) (by norm_num)
    have hbase : (162754.785 : ℝ) < 2.7182818283 ^ (12 : ℕ) := by norm_num
    rw [h12]
    exact hbase.trans hlt
  · have hlt : Real.exp 1 ^ (12 : ℕ) < (2.7182818286 : ℝ) ^ (12 : ℕ) :=
      pow_lt_pow_left₀ Real.exp_one_lt_d9 (Real.exp_pos 1).le (by norm_num)
    have hbase : (2.7182818286 : ℝ) ^ (12 : ℕ) < 162754.795 := by norm_num
    rw [h12]
    exact hlt.trans hbase

lemma pred_value_cents_log_12 : pred_value_cents false 12 = 16275379 := by
  obtain ⟨hlo, hhi⟩ := exp_twelve_bounds
  have : pred_value_cents false 12 = round ((Real.exp 12 - 1) * 100) := by
    unfold pred_value_cents pred_price
    norm_num
  rw [this, round_eq, Int.floor_eq_iff]
  constructor
  · push_cast
    nlinarith
  · push_cast
    nlinarith

/-- C8 counterexample: for a raw log-scale scalar of 12.0 the code
computes `expm1(12) = e^12 - 1 ≈ 162753.79`, so the rendered string is
not the "€162,754.79" (that value is `e^12`, without the minus one)
the claim asserts. -/
theorem c8_counterexample : pred_text false 12 ≠ "€162,754.79" := by
  unfold pred_text
  rw [pred_value_cents_log_12]
  decide

/-- C8 (amended): with log-scale output metadata the raw scalar is
inverse-transformed via expm1 (`exp raw - 1`; a real-scale artifact's
scalar is used unchanged), rounded to 2 decimals and rendered with a
leading euro sign and thousands separators; for a raw scalar of 12.0
the detransformed price is ≈ 162753.79 and the formatted result is
"€162,753.79". -/
theorem c8_log_scale_detransform :
    pred_price false 12 = Real.exp 12 - 1 ∧
    pred_price true 12 = 12 ∧
    pred_value_cents false 12 = 16275379 ∧
    pred_text false 12 = "€162,753.79" := by
  refine ⟨by unfold pred_price; norm_num, by unfold pred_price; norm_num,
    pred_value_cents_log_12, ?_⟩
  unfold pred_text
  rw [pred_value_cents_log_12]
  decide

/-- C9: the pipeline's preprocessing is deterministic — two runs on
identical requests against the same reference index, the same artifact
column list, and the same ambient calendar year produce identical
aligned feature vectors and identical warning text. -/
theorem c9_two_run_determinism (idx : List (String × String))
    (expectedCols : List String) (yr : Int) (r1 r2 : PredictRequest)
    (h : r1 = r2) :
    preprocess idx expectedCols yr r1 = preprocess idx expectedCols yr r2 := by
  rw [h]

/-- C9 witness: two runs at the Scenario-A request coincide. -/
theorem c9_witness :
    preprocess refIdx ["province", "region", "house_age"] 2026 reqPostalOnly =
      preprocess refIdx ["province", "region", "house_age"] 2026 reqPostalOnly :=
  c9_two_run_determinism refIdx ["province", "region", "house_age"] 2026
    reqPostalOnly reqPostalOnly rfl

/-- C10: an indexed postal code together with a province string that
does not normalize to any canonical province raises nothing and emits
no warning: the resolution succeeds, the supplied province is silently
replaced by the reference province, and (absent other soft-validation
findings) the warning line is empty. -/
theorem c10_unrecognized_province_silent (idx : List (String × String))
    (yr : Int) (req : PredictRequest) (pcRaw pc provRef rawProv : String)
    (hpc : req.postal_code = some pcRaw)
    (hparse : parse_postal_code (some pcRaw) = some pc)
    (hidx : alook idx pc = some provRef)
    (hprovRaw : req.province = some rawProv)
    (hprov : normalize_province req.province = none)
    (hg : req.garden = none) (ht : req.terrace = none)
    (hsp : req.swimming_pool = none) (hpt : req.property_type = none)
    (hst : req.state = none) :
    resolveAndBuild idx yr req =
      Except.ok (builtRecord req (some provRef) (some pc) yr, []) ∧
    alook (builtRecord req (some provRef) (some pc) yr) "province" =
      some (Value.str provRef) ∧
    (∀ cols, preprocess idx cols yr req =
      Except.ok (alignColumns cols (builtRecord req (some provRef) (some pc) yr), none)) := by
  have hres : resolveAndBuild idx yr req =
      Except.ok (builtRecord req (some provRef) (some pc) yr, []) := by
    have hne' : idx.isEmpty = false := alook_isEmpty_false hidx
    unfold resolveAndBuild
    rw [hpc]
    simp [hparse, hne', hidx, hprov, catWarnings, hg, ht, hsp, hpt, hst]
  refine ⟨hres, alook_builtRecord_province req (some pc) yr provRef, fun cols => ?_⟩
  unfold preprocess
  rw [hres]
  simp [one_line_warning]

/-- C10 witness: postal code 9000 (indexed OOST-VLAANDEREN) with the
unrecognizable province string "Antwerpzzz": no error, no warning, and
the reference province in the record. -/
theorem c10_witness :
    resolveAndBuild refIdx 2026 { reqPostalOnly with province := some "Antwerpzzz" } =
      Except.ok (builtRecord { reqPostalOnly with province := some "Antwerpzzz" }
        (some "OOST-VLAANDEREN") (some "9000") 2026, []) ∧
    alook (builtRecord { reqPostalOnly with province := some "Antwerpzzz" }
        (some "OOST-VLAANDEREN") (some "9000") 2026) "province" =
      some (Value.str "OOST-VLAANDEREN") ∧
    preprocess refIdx [] 2026 { reqPostalOnly with province := some "Antwerpzzz" } =
      Except.ok (alignColumns [] (builtRecord { reqPostalOnly with province := some "Antwerpzzz" }
        (some "OOST-VLAANDEREN") (some "9000") 2026), none) := by
  have h := c10_unrecognized_province_silent refIdx 2026
    { reqPostalOnly with province := some "Antwerpzzz" } "9000" "9000"
    "OOST-VLAANDEREN" "Antwerpzzz" rfl (by decide) (by decide) rfl (by decide)
    rfl rfl rfl rfl rfl
  exact ⟨h.1, h.2.1, h.2.2 []⟩

end ImmoEliza
